import Mathlib

/-!
Verification development for the gcphelper output-formatting and
resource-abstraction layer (pkg/output/formatter.go, pkg/organizations/types.go,
pkg/folders types, pkg/output adapters), shallowly embedded in Lean 4.

Conventions of the embedding:
* Go strings are Lean `String`s (all data here is ASCII).
* A Go `time.Time` is modelled by its calendar components (`GoTime`); the Go
  zero value `time.Time{}` is `GoTime.zero` = 0001-01-01 00:00:00 UTC, and the
  two renderings used by the code (`Format("2006-01-02 15:04:05")` and the
  RFC3339 JSON marshalling) are explicit functions.
* A Go slice, which is either nil or a (possibly empty) sequence, is a
  `GoSlice`; a Go pointer that may be nil is an `Option`.
* The byte streams are modelled by the strings written to them: `FormatResult`
  records the bytes written to the formatter's data sink (`f.writer`), the
  bytes written to the diagnostic stream (`os.Stderr`), and the returned
  error (`none` = Go `nil`).
-/

/-- Calendar components of a Go `time.Time` (UTC, sub-second part irrelevant
to the renderings the program uses). -/
structure GoTime where
  year : Nat
  month : Nat
  day : Nat
  hour : Nat
  minute : Nat
  second : Nat
deriving DecidableEq, Repr

/-- The Go zero value `time.Time{}`: January 1, year 1, 00:00:00 UTC. -/
def GoTime.zero : GoTime := ⟨1, 1, 1, 0, 0, 0⟩

/-- Two-digit zero-padded decimal, as Go's "01"/"02"/"15"/"04"/"05" verbs. -/
def pad2 (n : Nat) : String :=
  if n < 10 then "0" ++ toString n else toString n

/-- Four-digit zero-padded decimal, as Go's "2006" year verb. -/
def pad4 (n : Nat) : String :=
  if n < 10 then "000" ++ toString n
  else if n < 100 then "00" ++ toString n
  else if n < 1000 then "0" ++ toString n
  else toString n

/-- Go `t.Format("2006-01-02 15:04:05")`, the row-projection timestamp
rendering used by `TableRow` in both resource kinds. -/
def formatTimeRow (t : GoTime) : String :=
  pad4 t.year ++ "-" ++ pad2 t.month ++ "-" ++ pad2 t.day ++ " " ++
    pad2 t.hour ++ ":" ++ pad2 t.minute ++ ":" ++ pad2 t.second

/-- Go `time.Time` JSON marshalling (RFC3339, UTC, no sub-second part) as it
appears for the timestamps this program produces. -/
def formatTimeRFC3339 (t : GoTime) : String :=
  pad4 t.year ++ "-" ++ pad2 t.month ++ "-" ++ pad2 t.day ++ "T" ++
    pad2 t.hour ++ ":" ++ pad2 t.minute ++ ":" ++ pad2 t.second ++ "Z"

/-- Go `strings.TrimPrefix(s, pre)`: drop `pre` when it is a prefix of `s`,
otherwise return `s` unchanged. -/
def trimPfx (s pre : String) : String :=
  if pre.isPrefixOf s then s.drop pre.length else s

/-- A Go slice value: either the nil slice or a (possibly empty) sequence. -/
inductive GoSlice (α : Type) where
  | nilSlice : GoSlice α
  | mk (elems : List α) : GoSlice α
deriving DecidableEq, Repr

/-- The elements of a Go slice; `len` and `range` see nil and empty alike. -/
def GoSlice.toList {α : Type} : GoSlice α → List α
  | .nilSlice => []
  | .mk l => l

/-- `folders.Folder` (pkg/folders/types.go): the internal folder model. -/
structure Folder where
  ID : String
  Name : String
  DisplayName : String
  Parent : String
  State : String
  CreateTime : GoTime
  UpdateTime : GoTime
deriving DecidableEq, Repr

/-- `organizations.Organization` (pkg/organizations/types.go). -/
structure Organization where
  ID : String
  Name : String
  DisplayName : String
  State : String
  CreateTime : GoTime
  UpdateTime : GoTime
deriving DecidableEq, Repr

/-- `(*Folder).TableRow`: the folder's row projection (all cells are already
strings in the source: the two timestamps via `Format("2006-01-02 15:04:05")`). -/
def Folder.TableRow (f : Folder) : List String :=
  [f.ID, f.DisplayName, f.Parent, f.State,
   formatTimeRow f.CreateTime, formatTimeRow f.UpdateTime]

/-- `(*Organization).TableRow`: the organization's row projection. -/
def Organization.TableRow (o : Organization) : List String :=
  [o.ID, o.DisplayName, o.State,
   formatTimeRow o.CreateTime, formatTimeRow o.UpdateTime]

/-- `resourcemanagerpb.Organization_State` / `Folder_State` labels used by the
program (the proto enum's `String()` labels). -/
inductive PbState where
  | STATE_UNSPECIFIED
  | ACTIVE
  | DELETE_REQUESTED
deriving DecidableEq, Repr

/-- The proto enum's `String()` method. -/
def PbState.str : PbState → String
  | .STATE_UNSPECIFIED => "STATE_UNSPECIFIED"
  | .ACTIVE => "ACTIVE"
  | .DELETE_REQUESTED => "DELETE_REQUESTED"

/-- `timestamppb.Timestamp` as far as this program reads it: `AsTime`. -/
structure PbTimestamp where
  asTime : GoTime
deriving DecidableEq, Repr

/-- The fields of `resourcemanagerpb.Organization` this program reads. -/
structure PbOrganization where
  Name : String
  DisplayName : String
  State : PbState
  CreateTime : Option PbTimestamp
  UpdateTime : Option PbTimestamp
deriving DecidableEq, Repr

/-- The fields of `resourcemanagerpb.Folder` this program reads. -/
structure PbFolder where
  Name : String
  DisplayName : String
  Parent : String
  State : PbState
  CreateTime : Option PbTimestamp
  UpdateTime : Option PbTimestamp
deriving DecidableEq, Repr

/-! Generated proto getters are nil-safe in Go: called through a nil pointer
they return the field's zero value. The pointer is an `Option`. -/

def pbOrgGetName : Option PbOrganization → String
  | none => ""
  | some o => o.Name

def pbOrgGetDisplayName : Option PbOrganization → String
  | none => ""
  | some o => o.DisplayName

def pbOrgGetState : Option PbOrganization → PbState
  | none => .STATE_UNSPECIFIED
  | some o => o.State

def pbOrgGetCreateTime : Option PbOrganization → Option PbTimestamp
  | none => none
  | some o => o.CreateTime

def pbOrgGetUpdateTime : Option PbOrganization → Option PbTimestamp
  | none => none
  | some o => o.UpdateTime

def pbFolderGetName : Option PbFolder → String
  | none => ""
  | some f => f.Name

def pbFolderGetDisplayName : Option PbFolder → String
  | none => ""
  | some f => f.DisplayName

def pbFolderGetParent : Option PbFolder → String
  | none => ""
  | some f => f.Parent

def pbFolderGetState : Option PbFolder → PbState
  | none => .STATE_UNSPECIFIED
  | some f => f.State

def pbFolderGetCreateTime : Option PbFolder → Option PbTimestamp
  | none => none
  | some f => f.CreateTime

def pbFolderGetUpdateTime : Option PbFolder → Option PbTimestamp
  | none => none
  | some f => f.UpdateTime

/-- `const orgPrefix = "organizations/"` (pkg/organizations/types.go). -/
def orgPfx : String := "organizations/"

/-- `const folderPrefix = "folders/"` (pkg/folders types). -/
def folderPfx : String := "folders/"

/-- `organizations.OrganizationFromProto`: nil in, nil out; otherwise build the
organization from the getters, timestamps defaulting to the Go zero time when
the proto field is unset. -/
def OrganizationFromProto (pb : Option PbOrganization) : Option Organization :=
  match pb with
  | none => none
  | some _ =>
    some
      { ID := trimPfx (pbOrgGetName pb) orgPfx
        Name := pbOrgGetName pb
        DisplayName := pbOrgGetDisplayName pb
        State := (pbOrgGetState pb).str
        CreateTime :=
          match pbOrgGetCreateTime pb with
          | some ts => ts.asTime
          | none => GoTime.zero
        UpdateTime :=
          match pbOrgGetUpdateTime pb with
          | some ts => ts.asTime
          | none => GoTime.zero }

/-- `folders.FolderFromProto`: unlike the organization conversion there is no
nil guard in the source; the getters are nil-safe, so a nil proto still
produces a non-nil `*Folder` (here: `some`). -/
def FolderFromProto (pb : Option PbFolder) : Option Folder :=
  some
    { ID := trimPfx (pbFolderGetName pb) folderPfx
      Name := pbFolderGetName pb
      DisplayName := pbFolderGetDisplayName pb
      Parent := pbFolderGetParent pb
      State := (pbFolderGetState pb).str
      CreateTime :=
        match pbFolderGetCreateTime pb with
        | some ts => ts.asTime
        | none => GoTime.zero
      UpdateTime :=
        match pbFolderGetUpdateTime pb with
        | some ts => ts.asTime
        | none => GoTime.zero }

/-- The `output.Resource` capability interface; the program instantiates it
with exactly `*Folder` and `*Organization`, so it is embedded as the sum of
the two concrete kinds. -/
inductive Resource where
  | folder (f : Folder)
  | org (o : Organization)
deriving DecidableEq, Repr

/-- `Resource.GetID`, dispatching to the concrete kind's method. -/
def Resource.GetID : Resource → String
  | .folder f => f.ID
  | .org o => o.ID

/-- `Resource.GetDisplayName`. -/
def Resource.GetDisplayName : Resource → String
  | .folder f => f.DisplayName
  | .org o => o.DisplayName

/-- `Resource.GetState`. -/
def Resource.GetState : Resource → String
  | .folder f => f.State
  | .org o => o.State

/-- `Resource.GetCreateTime`. -/
def Resource.GetCreateTime : Resource → GoTime
  | .folder f => f.CreateTime
  | .org o => o.CreateTime

/-- `Resource.GetUpdateTime`. -/
def Resource.GetUpdateTime : Resource → GoTime
  | .folder f => f.UpdateTime
  | .org o => o.UpdateTime

/-- `Resource.TableRow`, dispatching to the concrete kind's row projection. -/
def Resource.TableRow : Resource → List String
  | .folder f => f.TableRow
  | .org o => o.TableRow

/-- `output.FoldersToResources`: `make([]Resource, len(folderList))` filled by
index with the very folders of the input (the Go slice stores the same
pointers; here, the same values under the `Resource.folder` injection). -/
def FoldersToResources (folderList : GoSlice Folder) : GoSlice Resource :=
  .mk (folderList.toList.map Resource.folder)

/-- `output.OrganizationsToResources`, likewise for organizations. -/
def OrganizationsToResources (organizationList : GoSlice Organization) : GoSlice Resource :=
  .mk (organizationList.toList.map Resource.org)

/-- `output.FolderHeaders()`. -/
def FolderHeaders : List String :=
  ["ID", "Display Name", "Parent", "State", "Create Time", "Update Time"]

/-- `output.OrganizationHeaders()`. -/
def OrganizationHeaders : List String :=
  ["ID", "Display Name", "State", "Create Time", "Update Time"]

/-- JSON values, as far as this program's encoder output needs them. -/
inductive Json where
  | null : Json
  | str (s : String) : Json
  | arr (xs : List Json) : Json
  | obj (fields : List (String × Json)) : Json

/-- Field lookup in a JSON object (the "decode then read field" step of the
round-trip property). -/
def jsonField (key : String) (j : Json) : Option Json :=
  match j with
  | .obj fs => fs.lookup key
  | _ => none

/-- `encoding/json` marshalling of a `*Folder`, following the struct tags
declared on `folders.Folder` in field order. -/
def Folder.toJson (f : Folder) : Json :=
  .obj
    [("id", .str f.ID),
     ("name", .str f.Name),
     ("display_name", .str f.DisplayName),
     ("parent", .str f.Parent),
     ("state", .str f.State),
     ("create_time", .str (formatTimeRFC3339 f.CreateTime)),
     ("update_time", .str (formatTimeRFC3339 f.UpdateTime))]

/-- `encoding/json` marshalling of a `*Organization`, following the struct
tags declared on `organizations.Organization` in field order. -/
def Organization.toJson (o : Organization) : Json :=
  .obj
    [("id", .str o.ID),
     ("name", .str o.Name),
     ("display_name", .str o.DisplayName),
     ("state", .str o.State),
     ("create_time", .str (formatTimeRFC3339 o.CreateTime)),
     ("update_time", .str (formatTimeRFC3339 o.UpdateTime))]

/-- Marshalling of a `Resource` interface value: `encoding/json` marshals the
dynamic value behind the interface. -/
def Resource.toJson : Resource → Json
  | .folder f => f.toJson
  | .org o => o.toJson

/-- Marshalling of the `[]Resource` slice itself: a nil slice encodes as JSON
null, any non-nil slice (empty included) as an array. -/
def sliceToJson (rs : GoSlice Resource) : Json :=
  match rs with
  | .nilSlice => .null
  | .mk l => .arr (l.map Resource.toJson)

/-- One character of Go's JSON string escaping (`encoding/json` with the
encoder's default HTML escaping). -/
def jsonEscapeChar (c : Char) : String :=
  if c = '"' then "\\\""
  else if c = '\\' then "\\\\"
  else if c = '\n' then "\\n"
  else if c = '\r' then "\\r"
  else if c = '\t' then "\\t"
  else if c = '<' then "\\u003c"
  else if c = '>' then "\\u003e"
  else if c = '&' then "\\u0026"
  else if c.toNat < 32 then
    "\\u00" ++ String.mk [Nat.digitChar (c.toNat / 16), Nat.digitChar (c.toNat % 16)]
  else String.mk [c]

/-- Go JSON string quoting. -/
def jsonQuote (s : String) : String :=
  "\"" ++ String.join (s.data.map jsonEscapeChar) ++ "\""

mutual

/-- Serialization of a JSON value as the program's encoder emits it:
`json.NewEncoder` with `SetIndent("", "  ")`; `ind` is the indentation of the
line the value starts on. -/
def serJson (ind : String) : Json → String
  | .null => "null"
  | .str s => jsonQuote s
  | .arr [] => "[]"
  | .arr (x :: xs) =>
    "[\n" ++ serArrItems (ind ++ "  ") x xs ++ "\n" ++ ind ++ "]"
  | .obj [] => "\x7b\x7d"
  | .obj ((k, v) :: fs) =>
    "\x7b\n" ++ serObjItems (ind ++ "  ") k v fs ++ "\n" ++ ind ++ "\x7d"
termination_by j => sizeOf j

/-- Comma-and-newline separated array elements, each on its own line at
indentation `ind`. -/
def serArrItems (ind : String) (x : Json) : List Json → String
  | [] => ind ++ serJson ind x
  | y :: ys => ind ++ serJson ind x ++ ",\n" ++ serArrItems ind y ys
termination_by l => sizeOf x + sizeOf l

/-- Comma-and-newline separated object members at indentation `ind`. -/
def serObjItems (ind : String) (k : String) (v : Json) : List (String × Json) → String
  | [] => ind ++ jsonQuote k ++ ": " ++ serJson ind v
  | (k2, v2) :: gs =>
    ind ++ jsonQuote k ++ ": " ++ serJson ind v ++ ",\n" ++ serObjItems ind k2 v2 gs
termination_by l => sizeOf v + sizeOf l

end

/-- An `io.Writer` destination. `stdout` is `os.Stdout`; `named` stands for
any other concrete writer handed in by a caller (a buffer, a file, ...). -/
inductive Sink where
  | stdout
  | named (label : String)
deriving DecidableEq, Repr

/-- `output.Formatter`: data sink, verbosity flag, resource-type label. -/
structure Formatter where
  writer : Sink
  verbose : Bool
  resourceType : String
deriving DecidableEq, Repr

/-- `output.NewFormatterWithType`: a nil writer is replaced by `os.Stdout`
before being stored. -/
def NewFormatterWithType (writer : Option Sink) (verbose : Bool)
    (resourceType : String) : Formatter :=
  { writer :=
      match writer with
      | none => Sink.stdout
      | some w => w
    verbose := verbose
    resourceType := resourceType }

/-- `const defaultResourceType = "resources"` (pkg/output/formatter.go). -/
def defaultResourceType : String := "resources"

/-- `var ErrUnsupportedOutputFormat = errors.New("unsupported output format")`. -/
def ErrUnsupportedOutputFormat : String := "unsupported output format"

/-- `output.FormatTable`. -/
def FormatTable : String := "table"

/-- `output.FormatJSON`. -/
def FormatJSON : String := "json"

/-- `output.FormatCSV`. -/
def FormatCSV : String := "csv"

/-- `output.FormatID`. -/
def FormatID : String := "id"

/-- The observable outcome of one `Format` call: bytes written to the data
sink (`f.writer`), bytes written to the diagnostic stream (`os.Stderr`), and
the returned Go error (`none` = nil). -/
structure FormatResult where
  data : String
  diag : String
  err : Option String
deriving DecidableEq, Repr

/-! Model of the external go-pretty/v6 table renderer, at the fidelity the
formatter relies on. `SetOutputMirror(w)` makes `Render`/`RenderCSV` write
the rendered text plus a final newline to `w`; `SetStyle(table.StyleDefault)`
draws an ASCII grid with `+ - |` borders, one-space cell padding, upper-cased
headers; `SetCaption(...)` appends the caption as a final line after the
bottom border. `RenderCSV` ignores the style's header casing and emits
RFC4180-style rows: a cell containing a double quote, comma or newline is
wrapped in double quotes with inner quotes doubled. -/

/-- go-pretty CSV cell escaping. -/
def csvCell (s : String) : String :=
  if s.data.any (fun c => c = '"' || c = ',' || c = '\n') then
    "\"" ++ String.join (s.data.map (fun c => if c = '"' then "\"\"" else String.mk [c])) ++ "\""
  else s

/-- One CSV line: escaped cells joined by commas. -/
def csvLine (cells : List String) : String :=
  String.intercalate "," (cells.map csvCell)

/-- Concatenation of lines, each terminated by a newline. -/
def joinLines : List String → String
  | [] => ""
  | l :: ls => l ++ "\n" ++ joinLines ls

/-- The bytes `RenderCSV` writes to the output mirror: the header line (when a
header row was appended) then one line per data row, each newline-terminated;
nothing at all when there are no lines. -/
def renderCSVStr (headers : List String) (rows : List (List String)) : String :=
  joinLines ((if headers.isEmpty then [] else [csvLine headers]) ++ rows.map csvLine)

/-- `n` repetitions of a character. -/
def repChar (c : Char) (n : Nat) : String := String.mk (List.replicate n c)

/-- Left-justified cell padded to width `w`. -/
def padCell (s : String) (w : Nat) : String := s ++ repChar ' ' (w - s.length)

/-- The number of table columns: the widest of the header row and all data
rows. -/
def tableCols (headers : List String) (rows : List (List String)) : Nat :=
  (rows.map List.length).foldl Nat.max headers.length

/-- Width of each of the `n` columns: the longest cell in that column over
header and rows. -/
def tableWidths (headers : List String) (rows : List (List String)) (n : Nat) : List Nat :=
  (List.range n).map fun i =>
    (rows.map (fun r => (r.getD i "").length)).foldl Nat.max (headers.getD i "").length

/-- A StyleDefault horizontal border line. -/
def gridSep (widths : List Nat) : String :=
  "+" ++ String.join (widths.map fun w => repChar '-' (w + 2) ++ "+") ++ "\n"

/-- A StyleDefault content line for one row. -/
def gridLine (widths : List Nat) (cells : List String) : String :=
  "|" ++
    String.join ((List.range widths.length).map fun i =>
      " " ++ padCell (cells.getD i "") (widths.getD i 0) ++ " |") ++
    "\n"

/-- The bytes `Render` writes to the output mirror: borders, the upper-cased
header line, the data lines, and — when a caption was set — the caption as a
final line after the bottom border. -/
def renderTableStr (headers : List String) (rows : List (List String))
    (caption : Option String) : String :=
  let widths := tableWidths headers rows (tableCols headers rows)
  gridSep widths ++ gridLine widths (headers.map String.toUpper) ++ gridSep widths ++
    String.join (rows.map (gridLine widths)) ++ gridSep widths ++
    (match caption with
     | some c => c ++ "\n"
     | none => "")

/-- `Formatter.formatJSON`: encode the slice with an indented encoder; the
encoder appends a final newline. Write failures cannot occur in the model, so
the error result is always nil. -/
def Formatter.formatJSON (_f : Formatter) (resources : GoSlice Resource) : FormatResult :=
  ⟨serJson "" (sliceToJson resources) ++ "\n", "", none⟩

/-- `Formatter.formatTable` (pkg/output/formatter.go lines 88-125): empty list
short-circuits, printing `No <type> found.` to stderr only when verbose;
otherwise render the grid to the data sink, with a `Total <type>: <n>` caption
when verbose. -/
def Formatter.formatTable (f : Formatter) (resources : GoSlice Resource)
    (headers : List String) : FormatResult :=
  if resources.toList.length = 0 then
    if f.verbose then
      let resourceType := if f.resourceType = "" then "resources" else f.resourceType
      ⟨"", "No " ++ resourceType ++ " found.\n", none⟩
    else
      ⟨"", "", none⟩
  else
    let rows := resources.toList.map Resource.TableRow
    let caption :=
      if f.verbose then
        let resourceType := if f.resourceType = "" then defaultResourceType else f.resourceType
        some ("Total " ++ resourceType ++ ": " ++ toString resources.toList.length)
      else none
    ⟨renderTableStr headers rows caption, "", none⟩

/-- `Formatter.formatCSV` (lines 127-145): no empty-list special case; always
render the header row and the data rows as CSV to the data sink. -/
def Formatter.formatCSV (_f : Formatter) (resources : GoSlice Resource)
    (headers : List String) : FormatResult :=
  ⟨renderCSVStr headers (resources.toList.map Resource.TableRow), "", none⟩

/-- `Formatter.formatID` (lines 147-165): on an empty list with verbose set,
print `No <type> found.` to stderr and return; otherwise print each resource's
ID on its own line to the data sink (a loop over an empty list writes
nothing). -/
def Formatter.formatID (f : Formatter) (resources : GoSlice Resource) : FormatResult :=
  if resources.toList.length = 0 ∧ f.verbose = true then
    let resourceType := if f.resourceType = "" then defaultResourceType else f.resourceType
    ⟨"", "No " ++ resourceType ++ " found.\n", none⟩
  else
    ⟨joinLines (resources.toList.map Resource.GetID), "", none⟩

/-- `Formatter.Format` (lines 62-75): dispatch on the format selector; any
unrecognized selector returns `fmt.Errorf("%w: %s", ErrUnsupportedOutputFormat,
format)` before any encoder runs, so nothing is written to either stream. -/
def Formatter.Format (f : Formatter) (resources : GoSlice Resource)
    (format : String) (headers : List String) : FormatResult :=
  if format = FormatJSON then f.formatJSON resources
  else if format = FormatCSV then f.formatCSV resources headers
  else if format = FormatTable then f.formatTable resources headers
  else if format = FormatID then f.formatID resources
  else ⟨"", "", some (ErrUnsupportedOutputFormat ++ ": " ++ format)⟩

/-- The resource-type label actually used in diagnostic messages and the table
caption: the formatter's label, falling back to `defaultResourceType` when the
label is empty (pkg/output/formatter.go lines 91-94, 116-119, 149-152). -/
def effectiveResourceType (f : Formatter) : String :=
  if f.resourceType = "" then defaultResourceType else f.resourceType

/-- The diagnostic line printed for an empty list when verbose. -/
def noFoundLine (f : Formatter) : String :=
  "No " ++ effectiveResourceType f ++ " found.\n"

/-- The organization of the spec's Scenario C and of TestOrgFromProto. -/
def scenarioOrg : Organization :=
  { ID := "123456789", Name := "organizations/123456789",
    DisplayName := "Test Organization", State := "ACTIVE",
    CreateTime := ⟨2023, 1, 1, 0, 0, 0⟩, UpdateTime := ⟨2023, 6, 1, 0, 0, 0⟩ }

/-- An organization whose timestamps are both the Go zero value. -/
def orgZeroTimes : Organization :=
  { ID := "1", Name := "organizations/1", DisplayName := "Org", State := "ACTIVE",
    CreateTime := GoTime.zero, UpdateTime := GoTime.zero }

/-- First folder of the spec's Scenario A (timestamps left at the zero value). -/
def folderA : Folder :=
  { ID := "123456789", Name := "folders/123456789", DisplayName := "Test Folder 1",
    Parent := "organizations/987654321", State := "ACTIVE",
    CreateTime := GoTime.zero, UpdateTime := GoTime.zero }

/-- Second folder of the spec's Scenario A. -/
def folderB : Folder :=
  { ID := "987654321", Name := "folders/987654321", DisplayName := "Test Folder 2",
    Parent := "organizations/987654321", State := "ACTIVE",
    CreateTime := GoTime.zero, UpdateTime := GoTime.zero }

/-- A non-verbose formatter writing to a caller-supplied buffer. -/
def bufFormatter : Formatter := ⟨Sink.named "buffer", false, "folders"⟩

/-- Claim C1: a format selector outside table/json/csv/id makes `Format`
return the wrapped unsupported-format error — whose message is the typed
error's text followed by the literal selector value, hence contains the
selector — and write zero bytes to the data sink and zero bytes to the
diagnostic stream, for every resource list, header list and verbosity. -/
theorem format_rejects_unknown_selector (f : Formatter) (resources : GoSlice Resource)
    (headers : List String) (format : String)
    (h1 : format ≠ FormatTable) (h2 : format ≠ FormatJSON)
    (h3 : format ≠ FormatCSV) (h4 : format ≠ FormatID) :
    f.Format resources format headers =
      ⟨"", "", some (ErrUnsupportedOutputFormat ++ ": " ++ format)⟩ ∧
    ∃ pre suf, ErrUnsupportedOutputFormat ++ ": " ++ format = pre ++ format ++ suf := by
  refine ⟨?_, ErrUnsupportedOutputFormat ++ ": ", "", by simp⟩
  simp [Formatter.Format, h1, h2, h3, h4]

/-- Witness for `format_rejects_unknown_selector` at the selector "yaml". -/
theorem format_rejects_unknown_selector_witness :
    bufFormatter.Format (.mk [Resource.folder folderA]) "yaml" [] =
      ⟨"", "", some "unsupported output format: yaml"⟩ :=
  ((format_rejects_unknown_selector bufFormatter (.mk [Resource.folder folderA]) [] "yaml"
      (by decide) (by decide) (by decide) (by decide)).1).trans (by decide)

/-- Claim C3, amended: the organization conversion maps a nil wire record to
nil, but the folder conversion has no nil guard: through the nil-safe proto
getters it maps a nil wire record to a non-nil Folder whose string fields are
empty, whose State is "STATE_UNSPECIFIED", and whose timestamps are the Go
zero value. -/
theorem fromProto_nil_input :
    OrganizationFromProto none = none ∧
    FolderFromProto none =
      some ⟨"", "", "", "", "STATE_UNSPECIFIED", GoTime.zero, GoTime.zero⟩ :=
  ⟨rfl, rfl⟩

/-- Counterexample to claim C3 as stated: `FolderFromProto` applied to the
nil wire record returns a non-nil Folder with empty fields, not nil. -/
theorem folderFromProto_nil_not_none :
    FolderFromProto none ≠ none ∧
    (FolderFromProto none).map Folder.ID = some "" ∧
    (FolderFromProto none).map Folder.DisplayName = some "" := by
  refine ⟨by decide, rfl, rfl⟩

/-- Claim C4: formatting a non-empty list in ID mode writes exactly each
resource's `GetID()` followed by a newline, in input order, to the data sink,
and nothing to the diagnostic stream (and returns nil error). -/
theorem formatID_nonempty (f : Formatter) (resources : GoSlice Resource)
    (headers : List String) (h : resources.toList ≠ []) :
    f.Format resources FormatID headers =
      ⟨joinLines (resources.toList.map Resource.GetID), "", none⟩ := by
  have hc : ¬(resources.toList = [] ∧ f.verbose = true) := fun hc => h hc.1
  simp [Formatter.Format, FormatID, FormatJSON, FormatCSV, FormatTable,
    Formatter.formatID, hc]

/-- Witness for `formatID_nonempty`: the spec's Scenario A, two folders with
IDs 123456789 and 987654321. -/
theorem formatID_nonempty_witness :
    bufFormatter.Format (.mk [Resource.folder folderA, Resource.folder folderB])
        FormatID [] =
      ⟨"123456789\n987654321\n", "", none⟩ :=
  (formatID_nonempty bufFormatter (.mk [Resource.folder folderA, Resource.folder folderB])
      [] (by decide)).trans (by decide)

/-- Claim C8: a zero-value CreateTime or UpdateTime renders in the row
projection (used by both table and CSV output) as the literal
"0001-01-01 00:00:00", for organizations (row cells 3 and 4) and folders
(row cells 4 and 5). -/
theorem tableRow_zero_time_rendering :
    (∀ o : Organization, o.CreateTime = GoTime.zero →
       o.TableRow[3]? = some "0001-01-01 00:00:00") ∧
    (∀ o : Organization, o.UpdateTime = GoTime.zero →
       o.TableRow[4]? = some "0001-01-01 00:00:00") ∧
    (∀ fl : Folder, fl.CreateTime = GoTime.zero →
       fl.TableRow[4]? = some "0001-01-01 00:00:00") ∧
    (∀ fl : Folder, fl.UpdateTime = GoTime.zero →
       fl.TableRow[5]? = some "0001-01-01 00:00:00") := by
  refine ⟨?_, ?_, ?_, ?_⟩ <;> intro x h <;>
    simp [Organization.TableRow, Folder.TableRow, h] <;> rfl

/-- Witness for `tableRow_zero_time_rendering` at concrete zero-timestamp
resources. -/
theorem tableRow_zero_time_rendering_witness :
    orgZeroTimes.TableRow[3]? = some "0001-01-01 00:00:00" ∧
    orgZeroTimes.TableRow[4]? = some "0001-01-01 00:00:00" ∧
    folderA.TableRow[4]? = some "0001-01-01 00:00:00" ∧
    folderA.TableRow[5]? = some "0001-01-01 00:00:00" :=
  ⟨tableRow_zero_time_rendering.1 orgZeroTimes rfl,
   tableRow_zero_time_rendering.2.1 orgZeroTimes rfl,
   tableRow_zero_time_rendering.2.2.1 folderA rfl,
   tableRow_zero_time_rendering.2.2.2 folderA rfl⟩

/-- Claim C9: the adapters return a capability sequence of the same length
whose element at every index is the input element at that index under the
kind injection — no filtering, reordering or deduplication. -/
theorem adapters_preserve_order_and_identity (fs : GoSlice Folder)
    (orgs : GoSlice Organization) :
    (FoldersToResources fs).toList.length = fs.toList.length ∧
    (∀ i : Nat, (FoldersToResources fs).toList[i]? =
       fs.toList[i]?.map Resource.folder) ∧
    (OrganizationsToResources orgs).toList.length = orgs.toList.length ∧
    (∀ i : Nat, (OrganizationsToResources orgs).toList[i]? =
       orgs.toList[i]?.map Resource.org) := by
  refine ⟨?_, ?_, ?_, ?_⟩ <;>
    simp [FoldersToResources, OrganizationsToResources, GoSlice.toList,
      List.getElem?_map]

/-- Claim C10: constructing a formatter with a nil writer succeeds and stores
`os.Stdout` as the data sink, so the constructed formatter — and therefore
every `Format` call on it — is identical to one constructed with an explicit
standard-output sink. -/
theorem nil_writer_defaults_to_stdout (verbose : Bool) (resourceType : String) :
    NewFormatterWithType none verbose resourceType =
      NewFormatterWithType (some Sink.stdout) verbose resourceType ∧
    (NewFormatterWithType none verbose resourceType).writer = Sink.stdout ∧
    ∀ (rs : GoSlice Resource) (format : String) (headers : List String),
      (NewFormatterWithType none verbose resourceType).Format rs format headers =
        (NewFormatterWithType (some Sink.stdout) verbose resourceType).Format rs format headers :=
  ⟨rfl, rfl, fun _ _ _ => rfl⟩

/-- Dispatch of `Format` on the "json" selector. -/
theorem Format_json_eq (f : Formatter) (rs : GoSlice Resource) (hs : List String) :
    f.Format rs FormatJSON hs = f.formatJSON rs := rfl

/-- Dispatch of `Format` on the "csv" selector. -/
theorem Format_csv_eq (f : Formatter) (rs : GoSlice Resource) (hs : List String) :
    f.Format rs FormatCSV hs = f.formatCSV rs hs := rfl

/-- Dispatch of `Format` on the "table" selector. -/
theorem Format_table_eq (f : Formatter) (rs : GoSlice Resource) (hs : List String) :
    f.Format rs FormatTable hs = f.formatTable rs hs := rfl

/-- Dispatch of `Format` on the "id" selector. -/
theorem Format_id_eq (f : Formatter) (rs : GoSlice Resource) (hs : List String) :
    f.Format rs FormatID hs = f.formatID rs := rfl

/-- The diagnostic stream after `formatTable` carries either nothing or the
single no-resources line, the latter only with an empty data stream. -/
theorem formatTable_diag (f : Formatter) (rs : GoSlice Resource) (hs : List String) :
    (f.formatTable rs hs).diag = "" ∨
    ((f.formatTable rs hs).diag = noFoundLine f ∧ (f.formatTable rs hs).data = "") := by
  unfold Formatter.formatTable
  split
  · split
    · exact Or.inr ⟨rfl, rfl⟩
    · exact Or.inl rfl
  · exact Or.inl rfl

/-- The diagnostic stream after `formatID` carries either nothing or the
single no-resources line, the latter only with an empty data stream. -/
theorem formatID_diag (f : Formatter) (rs : GoSlice Resource) :
    (f.formatID rs).diag = "" ∨
    ((f.formatID rs).diag = noFoundLine f ∧ (f.formatID rs).data = "") := by
  unfold Formatter.formatID
  split
  · exact Or.inr ⟨rfl, rfl⟩
  · exact Or.inl rfl

/-- `formatTable` on a non-empty list renders the grid (caption appended when
verbose) to the data sink and writes nothing to the diagnostic stream. -/
theorem formatTable_nonempty (f : Formatter) (rs : GoSlice Resource) (hs : List String)
    (h : rs.toList ≠ []) :
    f.formatTable rs hs =
      ⟨renderTableStr hs (rs.toList.map Resource.TableRow)
         (if f.verbose then
            some ("Total " ++ effectiveResourceType f ++ ": " ++ toString rs.toList.length)
          else none),
       "", none⟩ := by
  unfold Formatter.formatTable
  rw [if_neg (fun h0 => h (List.length_eq_zero.mp h0))]
  rfl

/-- A table rendered with a caption ends with the caption as its own final
line. -/
theorem renderTableStr_ends_with_caption (hs : List String) (rows : List (List String))
    (c : String) :
    ∃ pre, renderTableStr hs rows (some c) = pre ++ (c ++ "\n") :=
  ⟨gridSep (tableWidths hs rows (tableCols hs rows)) ++
     gridLine (tableWidths hs rows (tableCols hs rows)) (hs.map String.toUpper) ++
     gridSep (tableWidths hs rows (tableCols hs rows)) ++
     String.join (rows.map (gridLine (tableWidths hs rows (tableCols hs rows)))) ++
     gridSep (tableWidths hs rows (tableCols hs rows)),
   rfl⟩

/-- Claim C2, amended: formatting an empty list in table or ID mode with
verbose=false writes zero bytes to both streams and returns nil; with
verbose=true it writes zero bytes to the data sink and exactly
"No \x7btype\x7d found.\n" to the diagnostic stream, where \x7btype\x7d is
the formatter's resource-type label, falling back to "resources" when that
label is empty. -/
theorem empty_list_table_id (f : Formatter) (resources : GoSlice Resource)
    (headers : List String) (h : resources.toList = []) :
    (f.verbose = false →
      f.Format resources FormatTable headers = ⟨"", "", none⟩ ∧
      f.Format resources FormatID headers = ⟨"", "", none⟩) ∧
    (f.verbose = true →
      f.Format resources FormatTable headers = ⟨"", noFoundLine f, none⟩ ∧
      f.Format resources FormatID headers = ⟨"", noFoundLine f, none⟩) := by
  rw [Format_table_eq, Format_id_eq]
  constructor <;> intro hv <;>
    simp [Formatter.formatTable, Formatter.formatID, h, hv, noFoundLine,
      effectiveResourceType, defaultResourceType, joinLines]

/-- Counterexample to claim C2 as stated: with an empty resource-type label
the diagnostic line uses the fallback "resources", not the formatter's label. -/
theorem empty_verbose_diag_uses_fallback_label :
    ((⟨Sink.stdout, true, ""⟩ : Formatter).Format (.mk []) FormatTable
        OrganizationHeaders).diag = "No resources found.\n" ∧
    "No resources found.\n" ≠
      "No " ++ (⟨Sink.stdout, true, ""⟩ : Formatter).resourceType ++ " found.\n" :=
  ⟨rfl, by decide⟩

/-- Witness for `empty_list_table_id`: the spec's Scenario B and the
non-verbose ID case. -/
theorem empty_list_table_id_witness :
    (⟨Sink.stdout, true, "organizations"⟩ : Formatter).Format (.mk []) FormatTable
        OrganizationHeaders = ⟨"", "No organizations found.\n", none⟩ ∧
    (⟨Sink.named "buffer", false, "organizations"⟩ : Formatter).Format (.mk [])
        FormatID [] = ⟨"", "", none⟩ :=
  ⟨(((empty_list_table_id ⟨Sink.stdout, true, "organizations"⟩ (.mk [])
        OrganizationHeaders rfl).2 rfl).1).trans (by decide),
   ((empty_list_table_id ⟨Sink.named "buffer", false, "organizations"⟩ (.mk [])
        [] rfl).1 rfl).2⟩

/-- Claim C5: the JSON encoder writes the indented encoding of the array of
resource objects (plus the encoder's final newline) to the data sink and
nothing to the diagnostic stream; the encoded array — the value JSON decoding
recovers from those bytes — has one element per input resource whose "id"
field is, in order, the input's `GetID()`; the (always non-nil) empty slice an
adapter produces encodes as the empty array, not null. -/
theorem json_output_roundtrip (rs : List Resource) (f : Formatter)
    (headers : List String) :
    f.Format (.mk rs) FormatJSON headers =
      ⟨serJson "" (Json.arr (rs.map Resource.toJson)) ++ "\n", "", none⟩ ∧
    (rs.map Resource.toJson).length = rs.length ∧
    (∀ i : Nat, ((rs.map Resource.toJson)[i]?).bind (jsonField "id") =
       rs[i]?.map (fun r => Json.str r.GetID)) ∧
    sliceToJson (FoldersToResources .nilSlice) = Json.arr [] ∧
    sliceToJson (FoldersToResources (.mk [])) = Json.arr [] ∧
    sliceToJson (OrganizationsToResources .nilSlice) = Json.arr [] ∧
    sliceToJson (OrganizationsToResources (.mk [])) = Json.arr [] := by
  refine ⟨rfl, by simp, ?_, rfl, rfl, rfl, rfl⟩
  intro i
  cases hr : rs[i]? with
  | none => simp [List.getElem?_map, hr]
  | some r =>
    simp [List.getElem?_map, hr]
    cases r <;> rfl

/-- A non-verbose formatter for organizations writing to a caller buffer. -/
def bufOrgFormatter : Formatter := ⟨Sink.named "buffer", false, "organizations"⟩

/-- A verbose formatter for organizations writing to standard output. -/
def verboseOrgFormatter : Formatter := ⟨Sink.stdout, true, "organizations"⟩

/-- Claim C6: CSV output is the header line alone for an empty list, and the
header line followed by one row per resource in input order otherwise; for
the spec's Scenario C organization the bytes are exactly the stated header
and data line. -/
theorem csv_header_then_rows (f : Formatter) (headers : List String)
    (rs : GoSlice Resource) (h : headers ≠ []) :
    f.Format (.mk []) FormatCSV headers = ⟨csvLine headers ++ "\n", "", none⟩ ∧
    f.Format rs FormatCSV headers =
      ⟨csvLine headers ++ "\n" ++
         joinLines ((rs.toList.map Resource.TableRow).map csvLine), "", none⟩ ∧
    bufOrgFormatter.Format (.mk [Resource.org scenarioOrg]) FormatCSV
        OrganizationHeaders =
      ⟨"ID,Display Name,State,Create Time,Update Time\n" ++
         "123456789,Test Organization,ACTIVE,2023-01-01 00:00:00,2023-06-01 00:00:00\n",
       "", none⟩ := by
  have hie : headers.isEmpty = false := by
    cases headers with
    | nil => exact absurd rfl h
    | cons a l => rfl
  rw [Format_csv_eq, Format_csv_eq]
  refine ⟨?_, ?_, by decide⟩ <;>
    simp [Formatter.formatCSV, renderCSVStr, hie, GoSlice.toList, joinLines]

/-- Witness for `csv_header_then_rows`: the organization headers give exactly
the one-line header output on an empty list. -/
theorem csv_header_then_rows_witness :
    bufOrgFormatter.Format (.mk []) FormatCSV OrganizationHeaders =
      ⟨"ID,Display Name,State,Create Time,Update Time\n", "", none⟩ :=
  ((csv_header_then_rows bufOrgFormatter OrganizationHeaders (.mk [])
      (by decide)).1).trans (by decide)

/-- Claim C7: for every call, the diagnostic stream carries either nothing or
exactly the no-resources line (and in the latter case the data sink gets
nothing); all payload bytes go to the data sink. The one exception in stream
discipline is the verbose non-empty table, where the caption
"Total \x7btype\x7d: \x7bn\x7d" is rendered into the data sink as the table's
final line while the diagnostic stream stays empty. -/
theorem stream_separation :
    (∀ (f : Formatter) (rs : GoSlice Resource) (format : String)
       (headers : List String),
       (f.Format rs format headers).diag = "" ∨
       ((f.Format rs format headers).diag = noFoundLine f ∧
        (f.Format rs format headers).data = "")) ∧
    (∀ (f : Formatter) (rs : GoSlice Resource) (headers : List String),
       f.verbose = true → rs.toList ≠ [] →
       (f.Format rs FormatTable headers).diag = "" ∧
       ∃ pre, (f.Format rs FormatTable headers).data =
         pre ++ (("Total " ++ effectiveResourceType f ++ ": " ++
           toString rs.toList.length) ++ "\n")) := by
  constructor
  · intro f rs format headers
    by_cases h1 : format = FormatJSON
    · subst h1
      rw [Format_json_eq]
      exact Or.inl rfl
    by_cases h2 : format = FormatCSV
    · subst h2
      rw [Format_csv_eq]
      exact Or.inl rfl
    by_cases h3 : format = FormatTable
    · subst h3
      rw [Format_table_eq]
      exact formatTable_diag f rs headers
    by_cases h4 : format = FormatID
    · subst h4
      rw [Format_id_eq]
      exact formatID_diag f rs
    · have hd : f.Format rs format headers =
          ⟨"", "", some (ErrUnsupportedOutputFormat ++ ": " ++ format)⟩ := by
        simp [Formatter.Format, h1, h2, h3, h4]
      rw [hd]
      exact Or.inl rfl
  · intro f rs headers hv hne
    rw [Format_table_eq, formatTable_nonempty f rs headers hne, hv]
    exact ⟨rfl, renderTableStr_ends_with_caption headers
      (rs.toList.map Resource.TableRow)
      ("Total " ++ effectiveResourceType f ++ ": " ++ toString rs.toList.length)⟩

/-- Witness for `stream_separation`: a verbose single-organization table keeps
the diagnostic stream empty and ends the data stream with the caption line. -/
theorem stream_separation_witness :
    (verboseOrgFormatter.Format (.mk [Resource.org scenarioOrg]) FormatTable
        OrganizationHeaders).diag = "" ∧
    ∃ pre, (verboseOrgFormatter.Format (.mk [Resource.org scenarioOrg]) FormatTable
        OrganizationHeaders).data =
      pre ++ (("Total " ++ effectiveResourceType verboseOrgFormatter ++ ": " ++
        toString (GoSlice.mk [Resource.org scenarioOrg]).toList.length) ++ "\n") :=
  stream_separation.2 verboseOrgFormatter (.mk [Resource.org scenarioOrg])
    OrganizationHeaders rfl (by decide)
